import Mathlib

/-!
Verification development for the Candidate-ai voice-agent frontend.

The definitions below are shallow embeddings of the repository's source:
* `frontend/app/components/hooks/useAudioAnalyzer.ts` — the audio sampling
  hook (`supportsMotion`, the per-frame RMS `level` computation, the
  guard clauses that keep the analyzer from starting);
* `frontend/app/components/RadialVisualizer.tsx` — the per-frame canvas
  render computation (fallback level, glow/core radii);
* `frontend/app/components/VoiceAgent.tsx` — the `VoiceInterface` data
  message handler, the track-update effect, the `VoiceAgent` token fetch
  state machine and its render branches.

Machine floats are modelled by exact rationals/reals; JS byte arrays by
`List ℕ`; the nullable analyzer output by `Option`.
-/

namespace CandidateAI

/-! ## Audio analyzer: `useAudioAnalyzer.ts` -/

/-- One byte of a time-domain buffer normalised as in the hook's loop:
`const v = (time[i] - 128) / 128; // normalize -1..1`. -/
def byteToUnit (b : ℕ) : ℚ := ((b : ℚ) - 128) / 128

/-- The accumulated `sum += v * v` over the whole time-domain buffer. -/
def sumSquares (time : List ℕ) : ℚ :=
  (time.map (fun b => byteToUnit b * byteToUnit b)).sum

/-- Source line `const rms = Math.sqrt(sum / time.length)`. -/
noncomputable def rms (time : List ℕ) : ℝ :=
  Real.sqrt ((sumSquares time : ℝ) / (time.length : ℝ))

/-- Source line `const level = Math.min(1, rms * 2.2); // scale`. -/
noncomputable def level (time : List ℕ) : ℝ :=
  min 1 (rms time * 2.2)

/-- The level formula as worded by the spec: the root-mean-square of the
buffer after remapping each byte from [0,255] to [-1,1], multiplied by the
fixed gain 2.2 and clipped to 1.0.  Stated independently of `level` so the
code's computation can be compared against it. -/
noncomputable def levelSpec (time : List ℕ) : ℝ :=
  min (Real.sqrt ((((time.map byteToUnit).map (fun q => q ^ 2)).sum : ℚ) /
      (time.length : ℝ)) * (22 / 10)) 1

/-- A full-scale square wave: samples alternating between the byte
extremes 0 and 255, of length `2 * n`. -/
def squareWave (n : ℕ) : List ℕ := (List.replicate n [0, 255]).flatten

theorem sumSquares_nonneg (time : List ℕ) : 0 ≤ sumSquares time := by
  unfold sumSquares
  induction time with
  | nil => simp
  | cons b rest ih =>
      simp only [List.map_cons, List.sum_cons]
      have : 0 ≤ byteToUnit b * byteToUnit b := mul_self_nonneg _
      linarith

theorem level_nonneg (time : List ℕ) : 0 ≤ level time := by
  unfold level
  have h1 : (0 : ℝ) ≤ rms time * 2.2 := by
    have := Real.sqrt_nonneg ((sumSquares time : ℝ) / (time.length : ℝ))
    unfold rms
    nlinarith
  exact le_min (by norm_num) h1

theorem level_le_one (time : List ℕ) : level time ≤ 1 := min_le_left _ _

theorem sumSquares_append (a b : List ℕ) :
    sumSquares (a ++ b) = sumSquares a + sumSquares b := by
  unfold sumSquares
  simp

theorem sumSquares_replicate_mid (n : ℕ) :
    sumSquares (List.replicate n 128) = 0 := by
  induction n with
  | zero => simp [sumSquares]
  | succ k ih =>
      rw [List.replicate_succ]
      unfold sumSquares at ih ⊢
      simp only [List.map_cons, List.sum_cons, ih]
      norm_num [byteToUnit]

theorem sumSquares_squareWave (n : ℕ) :
    sumSquares (squareWave n) = n * (32513 / 16384) := by
  induction n with
  | zero => simp [squareWave, sumSquares]
  | succ k ih =>
      unfold squareWave at ih ⊢
      rw [List.replicate_succ, List.flatten_cons, sumSquares_append, ih]
      unfold sumSquares
      norm_num [byteToUnit]
      ring

theorem squareWave_length (n : ℕ) : (squareWave n).length = 2 * n := by
  induction n with
  | zero => simp [squareWave]
  | succ k ih =>
      unfold squareWave at ih ⊢
      rw [List.replicate_succ, List.flatten_cons, List.length_append, ih]
      simp
      ring

theorem sumSquares_eq_spec_sum (time : List ℕ) :
    ((time.map byteToUnit).map (fun q => q ^ 2)).sum = sumSquares time := by
  rw [List.map_map]
  unfold sumSquares
  congr 1
  simp [Function.comp, pow_two]

/-- C3: for every time-domain sample buffer, the emitted level equals the
root-mean-square of the buffer after remapping each byte from [0,255] to
[-1,1], multiplied by the fixed gain 2.2 and clipped to 1.0, so the level
always lies in the interval [0,1]. -/
theorem level_is_clipped_gained_rms (time : List ℕ) :
    level time = levelSpec time ∧ 0 ≤ level time ∧ level time ≤ 1 := by
  refine ⟨?_, level_nonneg time, level_le_one time⟩
  unfold level levelSpec rms
  rw [min_comm, sumSquares_eq_spec_sum]
  norm_num

/-- C4: an all-midpoint (value 128) buffer computes level exactly 0, and a
full-scale square wave alternating between the byte extremes 0 and 255
reaches the clip ceiling: level exactly 1. -/
theorem level_silent_zero_squareWave_one (n : ℕ) (hn : 0 < n) :
    level (List.replicate n 128) = 0 ∧ level (squareWave n) = 1 := by
  constructor
  · unfold level rms
    rw [sumSquares_replicate_mid]
    simp [Real.sqrt_zero]
  · unfold level rms
    rw [sumSquares_squareWave, squareWave_length]
    have hn' : ((n : ℝ)) ≠ 0 := Nat.cast_ne_zero.mpr (Nat.pos_iff_ne_zero.mp hn)
    have hq : (((n : ℚ) * (32513 / 16384) : ℚ) : ℝ) / (((2 * n : ℕ) : ℝ)) =
        32513 / 32768 := by
      push_cast
      field_simp
      ring
    rw [hq]
    have h5 : (5 / 11 : ℝ) ≤ Real.sqrt (32513 / 32768) := by
      apply Real.le_sqrt_of_sq_le
      norm_num
    have hs : (1 : ℝ) ≤ Real.sqrt (32513 / 32768) * 2.2 := by nlinarith [h5]
    exact min_eq_left hs

theorem level_silent_zero_squareWave_one_witness :
    0 < 2 ∧ (level (List.replicate 2 128) = 0 ∧ level (squareWave 2) = 1) :=
  ⟨by norm_num, level_silent_zero_squareWave_one 2 (by norm_num)⟩

/-! ## Analyzer start conditions and emitted samples -/

/-- The host-page environment consulted by the hook's `supportsMotion`
memo: whether `window` is defined, whether `window.matchMedia` exists, and
whether the `(prefers-reduced-motion: reduce)` query matches. -/
structure MotionEnv where
  windowDefined : Bool
  hasMatchMedia : Bool
  prefersReducedMotion : Bool
deriving DecidableEq, Repr

/-- The hook's `supportsMotion` memo:
`if (typeof window === 'undefined') return true;`
`return !window.matchMedia || !window.matchMedia('...').matches;`. -/
def supportsMotion (e : MotionEnv) : Bool :=
  if !e.windowDefined then true
  else !e.hasMatchMedia || !e.prefersReducedMotion

/-- An opaque media stream track reference (only identity matters). -/
structure MediaStreamTrack where
  id : ℕ
deriving DecidableEq, Repr

/-- One emitted `AnalyzerData` value: copies of the frequency and
time-domain byte buffers plus the derived level. -/
structure AnalyzerData where
  freq : List ℕ
  time : List ℕ
  level : ℝ

/-- The guard clauses at the top of the hook's main effect:
`if (!mediaStreamTrack) return; if (!supportsMotion) return;` — sampling
starts (an `AudioContext` is allocated) only past both. -/
def analyzerStarts (track : Option MediaStreamTrack) (e : MotionEnv) : Bool :=
  track.isSome && supportsMotion e

/-- Number of audio analysis contexts the effect allocates
(`new AudioContext()` runs exactly when both guards pass). -/
def contextsCreated (track : Option MediaStreamTrack) (e : MotionEnv) : ℕ :=
  if analyzerStarts track e then 1 else 0

/-- The samples emitted by the frame loop, given the raw per-frame
(frequency, time-domain) byte readings of the analyser node.  When the
effect returned early, the loop never runs and nothing is emitted. -/
noncomputable def emittedSamples (track : Option MediaStreamTrack) (e : MotionEnv)
    (frames : List (List ℕ × List ℕ)) : List AnalyzerData :=
  if analyzerStarts track e then
    frames.map (fun f => ⟨f.1, f.2, level f.2⟩)
  else []

/-- The hook's return value: `data` is the most recent `setData` payload,
initially `null`. -/
noncomputable def analyzerOutput (track : Option MediaStreamTrack) (e : MotionEnv)
    (frames : List (List ℕ × List ℕ)) : Option AnalyzerData :=
  (emittedSamples track e frames).getLast?

/-! ## RadialVisualizer per-frame render computation -/

/-- Source line `const level = data?.level ?? 0.05;` in the render loop. -/
noncomputable def renderLevel (data : Option AnalyzerData) : ℝ :=
  match data with
  | none => 0.05
  | some d => d.level

/-- Source line `const baseRadius = Math.min(w, h) * 0.32;` with a square
canvas (`w = h = size`). -/
noncomputable def baseRadius (size : ℝ) : ℝ := size * 0.32

/-- The quantities a render frame draws that depend on the sample data:
the outer glow radius and the pulsing core radius. -/
structure RenderFrame where
  glowRadius : ℝ
  coreRadius : ℝ

/-- One pass of the `render` loop body, restricted to the level-dependent
outputs: `baseRadius + 64 + level * 40` for the glow arc and
`baseRadius * 0.38 + level * (speaking ? 14 : 8)` for the core. -/
noncomputable def renderFrame (data : Option AnalyzerData) (size : ℝ)
    (state : String) : RenderFrame :=
  { glowRadius := baseRadius size + 64 + renderLevel data * 40
    coreRadius := baseRadius size * 0.38 +
      renderLevel data * (if state = "speaking" then 14 else 8) }

/-- C5: if the host signals a reduced-motion preference (window and
matchMedia present, query matching), the sampler never starts: no analysis
context is created, no sample is emitted for any attached track, and the
hook's output stays null. -/
theorem reduced_motion_blocks_sampler (e : MotionEnv)
    (track : Option MediaStreamTrack) (frames : List (List ℕ × List ℕ))
    (hw : e.windowDefined = true) (hm : e.hasMatchMedia = true)
    (hp : e.prefersReducedMotion = true) :
    supportsMotion e = false ∧ contextsCreated track e = 0 ∧
      emittedSamples track e frames = [] ∧ analyzerOutput track e frames = none := by
  have hsm : supportsMotion e = false := by
    unfold supportsMotion
    rw [hw, hm, hp]
    rfl
  have hst : analyzerStarts track e = false := by
    unfold analyzerStarts
    rw [hsm]
    simp
  refine ⟨hsm, ?_, ?_, ?_⟩
  · unfold contextsCreated
    rw [hst]
    rfl
  · unfold emittedSamples
    rw [hst]
    rfl
  · unfold analyzerOutput emittedSamples
    rw [hst]
    rfl

theorem reduced_motion_blocks_sampler_witness :
    (MotionEnv.mk true true true).windowDefined = true ∧
      (MotionEnv.mk true true true).hasMatchMedia = true ∧
      (MotionEnv.mk true true true).prefersReducedMotion = true ∧
      (supportsMotion (MotionEnv.mk true true true) = false ∧
        contextsCreated (some ⟨0⟩) (MotionEnv.mk true true true) = 0 ∧
        emittedSamples (some ⟨0⟩) (MotionEnv.mk true true true) [([0], [0])] = [] ∧
        analyzerOutput (some ⟨0⟩) (MotionEnv.mk true true true) [([0], [0])] = none) :=
  ⟨rfl, rfl, rfl,
    reduced_motion_blocks_sampler (MotionEnv.mk true true true) (some ⟨0⟩)
      [([0], [0])] rfl rfl rfl⟩

/-- C6: with no track attached (`track = null`) the sampler emits no
samples and the hook's output is null, while the renderer still produces a
defined frame using the fallback level 0.05. -/
theorem null_track_fallback_render (e : MotionEnv)
    (frames : List (List ℕ × List ℕ)) (size : ℝ) (state : String) :
    emittedSamples none e frames = [] ∧ analyzerOutput none e frames = none ∧
      renderLevel (analyzerOutput none e frames) = 0.05 ∧
      renderFrame (analyzerOutput none e frames) size state =
        { glowRadius := size * 0.32 + 64 + 0.05 * 40
          coreRadius := size * 0.32 * 0.38 +
            0.05 * (if state = "speaking" then 14 else 8) } := by
  have hst : analyzerStarts none e = false := by
    unfold analyzerStarts
    rfl
  have he : emittedSamples none e frames = [] := by
    unfold emittedSamples
    rw [hst]
    rfl
  have ho : analyzerOutput none e frames = none := by
    unfold analyzerOutput
    rw [he]
    rfl
  refine ⟨he, ho, ?_, ?_⟩
  · rw [ho]
    rfl
  · rw [ho]
    unfold renderFrame renderLevel baseRadius
    rfl

/-! ## VoiceInterface: inbound data messages and track updates

Agent state is carried at runtime as a plain string (the TypeScript union
annotation is not enforced on values coming out of `JSON.parse`), so the
embedding uses `String`. -/

/-- The four values of the declared agent-state union. -/
def validAgentStates : List String := ["idle", "listening", "thinking", "speaking"]

/-- What `JSON.parse(decoder.decode(payload))` followed by the `data.state`
access can observe: the payload is not valid JSON (`JSON.parse` throws and
the catch block ignores it), or it parses to a value whose `state` field is
absent, or present with a string value. -/
inductive InboundMessage where
  | notJson
  | parsed (state : Option String)
deriving DecidableEq, Repr

/-- The `handleDataReceived` callback: messages from the local participant
(or with no participant) are ignored; otherwise the payload is parsed in a
try/catch and `if (data.state) setAgentState(data.state)` runs — any truthy
(non-empty) `state` string is installed, with no membership check against
the enumeration.  Returns the agent state after the callback. -/
def handleDataReceived (senderIsRemote : Bool) (current : String)
    (msg : InboundMessage) : String :=
  if senderIsRemote then
    match msg with
    | InboundMessage.notJson => current
    | InboundMessage.parsed none => current
    | InboundMessage.parsed (some s) => if s = "" then current else s
  else current

/-- The effect on `[remoteParticipants, tracks]`: every branch of the body
ends in `setAgentState('listening')` — whether the agent participant is
absent, present without a microphone track, or present with one. -/
def trackUpdateState (agentPresent : Bool) (agentMicTracks : ℕ) : String :=
  if !agentPresent then "listening"
  else if agentMicTracks = 0 then "listening"
  else "listening"

/-- C7 counterexample: a well-formed JSON payload whose `state` field is
the string "banana" — outside the closed idle/listening/thinking/speaking
set — is not dropped: it replaces the current agent state. -/
theorem malformed_state_not_dropped :
    handleDataReceived true "idle" (InboundMessage.parsed (some "banana")) =
        "banana" ∧
      "banana" ∉ validAgentStates ∧
      handleDataReceived true "idle" (InboundMessage.parsed (some "banana")) ≠
        "idle" := by
  refine ⟨rfl, ?_, ?_⟩ <;> decide

/-- C7 amended: payloads that fail JSON parsing or lack a truthy `state`
field are silently dropped (the callback returns, the state is unchanged,
nothing is thrown — the handler is a total function); but any non-empty
`state` string from a remote sender is installed verbatim, including values
outside the four-state enumeration. -/
theorem data_message_parse_behavior (current : String) (s : String)
    (msg : InboundMessage) :
    handleDataReceived true current InboundMessage.notJson = current ∧
      handleDataReceived true current (InboundMessage.parsed none) = current ∧
      handleDataReceived true current (InboundMessage.parsed (some "")) = current ∧
      handleDataReceived false current msg = current ∧
      handleDataReceived true current (InboundMessage.parsed (some s)) =
        (if s = "" then current else s) := by
  refine ⟨rfl, rfl, rfl, rfl, rfl⟩

/-- C10: the participants/tracks effect unconditionally resets the agent
state to "listening": whatever branch runs (agent absent, agent without a
mic track, agent with one), the state it installs is "listening" — in
particular a "speaking" state previously established by a data-channel
message is overwritten, since the effect never reads the prior state. -/
theorem track_update_resets_to_listening (agentPresent : Bool)
    (agentMicTracks : ℕ) :
    trackUpdateState agentPresent agentMicTracks = "listening" ∧
      trackUpdateState agentPresent agentMicTracks ≠ "speaking" := by
  unfold trackUpdateState
  constructor
  · split
    · rfl
    · split <;> rfl
  · split
    · decide
    · split <;> decide

/-! ## VoiceAgent: token fetch, render branches, connection lifecycle -/

/-- Source line `const [roomName] = useState('voice-agent-room')` — the
room identity is a constant, so every mounted instance targets the same
room. -/
def roomName : String := "voice-agent-room"

/-- The component state of `VoiceAgent`: `token`, `isConnecting`, `error`,
plus an instrumentation counter of how many times `fetchToken` has been
invoked. -/
structure VoiceAgentState where
  token : String
  isConnecting : Bool
  error : String
  fetchesStarted : ℕ
deriving DecidableEq, Repr

/-- Initial state: `useState('')`, `useState(false)`, `useState('')`. -/
def initAgent : VoiceAgentState :=
  { token := "", isConnecting := false, error := "", fetchesStarted := 0 }

/-- The events that drive `VoiceAgent`: the mount effect
(`useEffect(() => { fetchToken(); }, [fetchToken])`), the retry button
(`onClick={fetchToken}`), resolution of the token fetch, and the
`onDisconnected` transport callback. -/
inductive AgentEvent where
  | mount
  | retryClick
  | tokenSuccess (tok : String)
  | tokenFailure (msg : String)
  | transportDisconnect (clientInitiated : Bool)
deriving DecidableEq, Repr

/-- One event step.  `fetchToken` begins with `setIsConnecting(true);
setError('')`; on success it runs `setToken(data.token)` and the `finally`
block clears `isConnecting`; on failure it runs `setError(msg)` and the
`finally` block clears `isConnecting`.  `onDisconnected` re-invokes
`fetchToken` (after 2 s) unless the disconnect was client initiated. -/
def stepAgent (s : VoiceAgentState) (e : AgentEvent) : VoiceAgentState :=
  match e with
  | AgentEvent.mount =>
      { s with isConnecting := true, error := "",
               fetchesStarted := s.fetchesStarted + 1 }
  | AgentEvent.retryClick =>
      { s with isConnecting := true, error := "",
               fetchesStarted := s.fetchesStarted + 1 }
  | AgentEvent.tokenSuccess tok =>
      { s with token := tok, isConnecting := false }
  | AgentEvent.tokenFailure msg =>
      { s with error := msg, isConnecting := false }
  | AgentEvent.transportDisconnect clientInitiated =>
      if clientInitiated then s
      else { s with isConnecting := true, error := "",
                    fetchesStarted := s.fetchesStarted + 1 }

/-- Run a sequence of events from a starting state. -/
def runAgent (s : VoiceAgentState) (events : List AgentEvent) : VoiceAgentState :=
  events.foldl stepAgent s

/-- Which events are user gestures: only the retry button is wired to a
user action; mounting, fetch resolution and transport callbacks are not. -/
def isUserAction (e : AgentEvent) : Bool :=
  match e with
  | AgentEvent.retryClick => true
  | _ => false

/-- Number of user gestures in an event trace. -/
def countUserActions (events : List AgentEvent) : ℕ :=
  (events.filter isUserAction).length

/-- What `VoiceAgent` renders. `room` stands for the
`<LiveKitRoom connect={true} ...>` subtree, which opens a transport
session for `roomName`. -/
inductive AgentView where
  | loading
  | errorView (msg : String)
  | configError
  | room
deriving DecidableEq, Repr

/-- The render branches, in source order:
`if (isConnecting || !token) return <loading/>;`
`if (error) return <error retry/>;`
`if (!serverUrl) return <config error/>;`
`return <LiveKitRoom connect={true} .../>`. -/
def render (s : VoiceAgentState) (serverUrl : Option String) : AgentView :=
  if s.isConnecting || s.token = "" then AgentView.loading
  else if s.error ≠ "" then AgentView.errorView s.error
  else match serverUrl with
    | none => AgentView.configError
    | some _ => AgentView.room

/-- C8 counterexample: the trace consisting of the mount effect followed by
a successful token response contains no user action, yet it has started a
token fetch and renders the auto-connecting `LiveKitRoom` subtree. -/
theorem session_starts_without_user_action :
    (runAgent initAgent [AgentEvent.mount, AgentEvent.tokenSuccess "tok"]).fetchesStarted = 1 ∧
      countUserActions [AgentEvent.mount, AgentEvent.tokenSuccess "tok"] = 0 ∧
      render (runAgent initAgent [AgentEvent.mount, AgentEvent.tokenSuccess "tok"])
        (some "wss://example.com") = AgentView.room := by
  refine ⟨rfl, rfl, ?_⟩
  decide

/-- C8 amended: the session start is automatic, not user-initiated — the
mount effect itself invokes the token fetch (a non-user event), and once a
non-empty token arrives with no error and a configured server URL the
component renders `LiveKitRoom` with `connect={true}` unconditionally; the
retry button is the only user-gesture-driven trigger. -/
theorem auto_start_on_mount (s : VoiceAgentState) (tok url : String) :
    (stepAgent s AgentEvent.mount).fetchesStarted = s.fetchesStarted + 1 ∧
      isUserAction AgentEvent.mount = false ∧
      countUserActions [AgentEvent.mount, AgentEvent.tokenSuccess tok] = 0 ∧
      render (runAgent initAgent [AgentEvent.mount, AgentEvent.tokenSuccess tok])
          (some url) =
        (if tok = "" then AgentView.loading else AgentView.room) := by
  refine ⟨rfl, rfl, rfl, ?_⟩
  show render { token := tok, isConnecting := false, error := "",
                fetchesStarted := 1 } (some url) =
    (if tok = "" then AgentView.loading else AgentView.room)
  unfold render
  by_cases h : tok = "" <;> simp [h]

/-- C9: after a failed token fetch the component state carries the error,
but the render branch order (`isConnecting || !token` first) shows the
loading spinner, not the error view with its retry button — the
token-failure error state is unreachable in the UI. -/
theorem token_failure_stuck_on_loading :
    (runAgent initAgent [AgentEvent.mount,
        AgentEvent.tokenFailure "Token fetch failed: 500"]).error =
      "Token fetch failed: 500" ∧
      render (runAgent initAgent [AgentEvent.mount,
          AgentEvent.tokenFailure "Token fetch failed: 500"])
          (some "wss://example.com") = AgentView.loading ∧
      render (runAgent initAgent [AgentEvent.mount,
          AgentEvent.tokenFailure "Token fetch failed: 500"])
          (some "wss://example.com") ≠
        AgentView.errorView "Token fetch failed: 500" := by
  refine ⟨rfl, ?_, ?_⟩ <;> decide

/-! ## Teardown and live transport sessions -/

/-- The atomic teardown steps the spec's ordering talks about, plus the
listener removal the code actually performs. -/
inductive TeardownAction where
  | stopSampling
  | stopRendering
  | removeDataListener
  | requestDisconnect
  | clearGuardFlag
deriving DecidableEq, Repr

/-- Cleanup of `useAudioAnalyzer`'s effects: cancel the frame loop and
release the audio context (stop sampling). -/
def analyzerCleanup : List TeardownAction := [TeardownAction.stopSampling]

/-- Cleanup of `RadialVisualizer`'s render effect: cancel the frame loop
(stop rendering). -/
def visualizerCleanup : List TeardownAction := [TeardownAction.stopRendering]

/-- Cleanup of `VoiceInterface`'s data effect: `room.off(DataReceived)`. -/
def voiceInterfaceCleanup : List TeardownAction := [TeardownAction.removeDataListener]

/-- The `VoiceAgent` component registers no unmount cleanup effect at all. -/
def voiceAgentCleanup : List TeardownAction := []

/-- Everything that runs when the component tree unmounts. -/
def unmountTeardown : List TeardownAction :=
  analyzerCleanup ++ visualizerCleanup ++ voiceInterfaceCleanup ++ voiceAgentCleanup

/-- No `beforeunload` (or `pagehide`/`unload`) listener is registered
anywhere in the sources, so page unload runs no teardown step. -/
def beforeUnloadActions : List TeardownAction := []

/-- C2: on unmount the cleanups only stop sampling/rendering and remove
the data listener — no transport disconnect is requested, no guard flag is
cleared, and page unload triggers nothing at all. -/
theorem unmount_teardown_never_disconnects :
    TeardownAction.requestDisconnect ∉ unmountTeardown ∧
      TeardownAction.clearGuardFlag ∉ unmountTeardown ∧
      beforeUnloadActions = [] := by
  refine ⟨?_, ?_, rfl⟩ <;> decide

/-- Mount/unmount events of the component tree once a token is available:
mounting renders `LiveKitRoom connect={true}` and the transport session it
opens reaches Connected; unmounting runs `unmountTeardown`. -/
inductive ComponentEvent where
  | mountConnected
  | unmountInstance
deriving DecidableEq, Repr

/-- How many transport sessions an unmount closes: the number of
`requestDisconnect` steps in the teardown that actually runs. -/
def sessionsClosedByUnmount : ℕ :=
  unmountTeardown.count TeardownAction.requestDisconnect

/-- Count of live (Connecting/Connected) transport sessions after a
mount/unmount event sequence, starting from `n` live sessions. -/
def liveSessions (n : ℕ) : List ComponentEvent → ℕ
  | [] => n
  | ComponentEvent.mountConnected :: rest => liveSessions (n + 1) rest
  | ComponentEvent.unmountInstance :: rest =>
      liveSessions (n - sessionsClosedByUnmount) rest

/-- C1: with a fetched token every mount renders the auto-connecting
`LiveKitRoom` subtree (no guard flag is consulted — none exists in the
component state), and a Strict-Mode remount sequence
mount–unmount–remount leaves two transport sessions live for the single
constant room identity `roomName`, because the unmount teardown closes
none. -/
theorem double_mount_opens_two_sessions :
    render (runAgent initAgent [AgentEvent.mount, AgentEvent.tokenSuccess "tok"])
        (some "wss://example.com") = AgentView.room ∧
      sessionsClosedByUnmount = 0 ∧
      liveSessions 0 [ComponentEvent.mountConnected, ComponentEvent.unmountInstance,
        ComponentEvent.mountConnected] = 2 ∧
      roomName = "voice-agent-room" := by
  refine ⟨?_, rfl, rfl, rfl⟩
  decide

end CandidateAI
